import Mathlib

/-!
Verification of the OmniPair GAMM risk-simulation engine.

This file is a shallow embedding, in Lean 4, of the core modules of the
simulator: the collateral-factor solver (modules/collateral_factor.py), the
liquidation engine (modules/liquidation_engine.py), the EMA price oracle
(modules/ema_engine.py) and the pool orchestrator (modules/gamm_pool.py),
together with theorems settling the frozen claims about them.

Modelling conventions, stated once here:
* Python unbounded nonnegative integers (NAD-scaled amounts and prices, basis
  points, unix timestamps) are modelled as Nat.  Python floor division on
  nonnegative operands is Nat division.  Python max(0, a - b) on integers
  with a, b >= 0 is Nat subtraction.
* The one signed quantity produced by the code, the liquidator profit, is
  modelled as Int.
* The source computes the curve square root as int(math.sqrt(x)) with IEEE
  doubles.  The model uses the exact integer square root Nat.sqrt; claim C10
  settles the difference.  The EMA decay branch (math.exp on floats) is
  abstracted as an explicit function parameter; no claim depends on its value.
-/

/-- Fixed-point scale factor: amounts and prices carry nine decimals
(config.py, NAD). -/
def NAD : ℕ := 1000000000

/-- Basis-point denominator: 10000 bps = 100% (config.py). -/
def BPS_DENOMINATOR : ℕ := 10000

/-- Default close factor for liquidations: 50% (config.py). -/
def CLOSE_FACTOR_BPS : ℕ := 5000

/-- Global cap on the collateral factor: 85% (config.py). -/
def MAX_COLLATERAL_FACTOR_BPS : ℕ := 8500

/-- Global LTV safety buffer: 5% (config.py). -/
def LTV_BUFFER_BPS : ℕ := 500

/-- Default liquidator bonus: 3% (config.py). -/
def LIQUIDATION_INCENTIVE_BPS : ℕ := 300

/-- Lower bound on the EMA half-life in seconds (config.py). -/
def MIN_HALF_LIFE : ℕ := 60

/-- Upper bound on the EMA half-life in seconds (config.py). -/
def MAX_HALF_LIFE : ℕ := 43200

/-- The operand handed to the square root inside curve_y_from_v
(collateral_factor.py lines 35-39): with a_scaled = v * NAD / r1, the
operand is (4 * a_scaled + NAD) * NAD. -/
def curve_sqrt_operand (v r1 : ℕ) : ℕ :=
  (4 * (v * NAD / r1) + NAD) * NAD

/-- Exact AMM curve solution (collateral_factor.py, curve_y_from_v): given
collateral value v and debt reserve r1, the maximum borrowable y keeping the
constant-product invariant, y = r1 * t with t = 2a / (2a + 1 + sqrt (4a + 1))
and a = v / r1, all carried at NAD scale with truncating division.  The
source takes the square root as int(math.sqrt(four_a_plus_one * NAD)) with
IEEE doubles; here it is the exact integer square root of the same operand
(the difference is the subject of claim C10). -/
def curve_y_from_v (v r1 : ℕ) : ℕ :=
  if v = 0 ∨ r1 = 0 then 0
  else
    let a_scaled := v * NAD / r1
    let sqrt_term := Nat.sqrt (curve_sqrt_operand v r1)
    let numerator := 2 * a_scaled * NAD
    let denominator := 2 * a_scaled + NAD + sqrt_term
    if denominator = 0 then 0
    else
      let t_scaled := numerator / denominator
      r1 * t_scaled / NAD

/-- Pessimistic divergence cap (collateral_factor.py, get_pessimistic_cf_bps):
shrink the base CF by spot/ema, never grow it, then clamp the result into
[100, MAX_COLLATERAL_FACTOR_BPS]; an uninitialized ema yields the 1% floor. -/
def get_pessimistic_cf_bps (base_cf_bps spot_price ema_price : ℕ) : ℕ :=
  if ema_price = 0 then 100
  else
    let shrunk_cf := spot_price * base_cf_bps / ema_price
    let cf_bps := min base_cf_bps shrunk_cf
    min MAX_COLLATERAL_FACTOR_BPS (max 100 cf_bps)

/-- Dynamic collateral factor from the AMM curve (collateral_factor.py,
calculate_dynamic_cf): CF in bps is curve_y_from_v (v, r1) * 10000 / v with
v the collateral value at the EMA price. -/
def calculate_dynamic_cf (collateral_amount collateral_ema_price debt_reserve : ℕ) : ℕ :=
  if debt_reserve = 0 then 0
  else
    let v := collateral_amount * collateral_ema_price / NAD
    if v = 0 then 0
    else
      let y_curve := curve_y_from_v v debt_reserve
      y_curve * BPS_DENOMINATOR / v

/-- Core CF solver (collateral_factor.py, pessimistic_max_debt).  Step 1
selects the base CF: a configured fixed CF verbatim, else the dynamic curve
CF when enabled, else the hardcoded 7500 fallback; the intermediate Option
encodes the early (0, 0, 0) return of the dynamic branch on a zero reserve.
Step 2 applies the pessimistic cap when enabled (else min with the global
max).  Step 3 subtracts the global LTV_BUFFER_BPS clamped at zero when the
buffer is enabled.  Step 4 computes the borrow limit.  Degenerate inputs
return (0, 0, 0). -/
def pessimistic_max_debt (collateral_amount collateral_ema_price collateral_spot_price
    debt_reserve : ℕ) (fixed_cf_bps : Option ℕ)
    (use_dynamic_cf use_pessimistic_cap use_ltv_buffer : Bool) : ℕ × ℕ × ℕ :=
  if collateral_amount = 0 ∨ collateral_ema_price = 0 ∨ collateral_spot_price = 0 then
    (0, 0, 0)
  else
    let v := collateral_amount * collateral_ema_price / NAD
    let base? : Option ℕ :=
      match fixed_cf_bps with
      | some cf => some cf
      | none =>
        if use_dynamic_cf then
          if debt_reserve = 0 then none
          else some (calculate_dynamic_cf collateral_amount collateral_ema_price debt_reserve)
        else some 7500
    match base? with
    | none => (0, 0, 0)
    | some base_cf_bps =>
      let liquidation_cf_bps :=
        if use_pessimistic_cap then
          get_pessimistic_cf_bps base_cf_bps collateral_spot_price collateral_ema_price
        else min base_cf_bps MAX_COLLATERAL_FACTOR_BPS
      let buffer := if use_ltv_buffer then LTV_BUFFER_BPS else 0
      let max_allowed_cf_bps := liquidation_cf_bps - buffer
      let max_borrow := v * max_allowed_cf_bps / BPS_DENOMINATOR
      (max_borrow, max_allowed_cf_bps, liquidation_cf_bps)

/-- Configured CF calculator (collateral_factor.py,
CollateralFactorCalculator).  The source constructor stores the five fields
and performs no validation whatsoever; max_cf_bps is stored but never read
by the calculate method. -/
structure CollateralFactorCalculator where
  use_dynamic_cf : Bool
  use_pessimistic_cap : Bool
  use_ltv_buffer : Bool
  fixed_cf_bps : Option ℕ
  max_cf_bps : ℕ
deriving DecidableEq

/-- Constructor of the CF calculator (collateral_factor.py,
CollateralFactorCalculator.__init__): it only assigns the fields —
construction always succeeds, with no configuration check. -/
def CollateralFactorCalculator.init (use_dynamic_cf use_pessimistic_cap use_ltv_buffer : Bool)
    (fixed_cf_bps : Option ℕ) (max_cf_bps : ℕ) : CollateralFactorCalculator :=
  ⟨use_dynamic_cf, use_pessimistic_cap, use_ltv_buffer, fixed_cf_bps, max_cf_bps⟩

/-- CollateralFactorCalculator.calculate: delegate to pessimistic_max_debt
with the stored configuration. -/
def CollateralFactorCalculator.calculate (c : CollateralFactorCalculator)
    (collateral_amount collateral_ema_price collateral_spot_price debt_reserve : ℕ) :
    ℕ × ℕ × ℕ :=
  pessimistic_max_debt collateral_amount collateral_ema_price collateral_spot_price
    debt_reserve c.fixed_cf_bps c.use_dynamic_cf c.use_pessimistic_cap c.use_ltv_buffer

/-- Standalone liquidatability predicate (liquidation_engine.py,
is_liquidatable): with zero collateral value, liquidatable iff there is
debt; otherwise liquidatable iff debt reaches the borrow limit at the
liquidation CF (boundary inclusive). -/
def is_liquidatable (collateral_value debt_amount liquidation_cf_bps : ℕ) : Bool :=
  if collateral_value = 0 then decide (0 < debt_amount)
  else decide (collateral_value * liquidation_cf_bps / BPS_DENOMINATOR ≤ debt_amount)

/-- The fields of the dictionary returned by calculate_liquidation on its
liquidatable branch (liquidation_engine.py lines 75-126).  The health_factor
key is the constant 0 on this branch and is omitted. -/
structure LiqOutcome where
  is_insolvent : Bool
  debt_to_repay : ℕ
  collateral_seized : ℕ
  liquidator_bonus : ℕ
  collateral_to_reserves : ℕ
  bad_debt : ℕ
  remaining_collateral : ℕ
  remaining_debt : ℕ
  liquidator_profit_usd : ℤ
  collateral_value : ℕ
  debt_amount : ℕ
  borrow_limit : ℕ
deriving DecidableEq

/-- Result of calculate_liquidation: the source returns one of two dictionary
shapes, a health report when the position is not liquidatable (keys
liquidatable=False, health_factor, collateral_value, debt_amount,
borrow_limit) or the full liquidation outcome (liquidatable=True). -/
inductive LiqResult where
  | healthy (health_factor collateral_value debt_amount borrow_limit : ℕ)
  | fire (out : LiqOutcome)
deriving DecidableEq

/-- The liquidatable key of the returned dictionary. -/
def LiqResult.liquidatable : LiqResult → Bool
  | .healthy _ _ _ _ => false
  | .fire _ => true

/-- Liquidation calculator (liquidation_engine.py, calculate_liquidation).
Not liquidatable iff debt_amount < borrow_limit strictly (note: unlike
is_liquidatable, there is no special case for a zero collateral value).
On the liquidatable branch: full repayment when insolvent, else the close
factor share of the debt; seized collateral is the repaid value at the
price, capped at the collateral; the bonus is carved from the seizure; the
remainder returns to reserves.  The source raises ZeroDivisionError when
collateral_price = 0 on this branch; the model's Nat division returns 0
there, and theorems about the liquidatable branch are applied at positive
prices. -/
def calculate_liquidation (collateral_amount collateral_price debt_amount
    liquidation_cf_bps close_factor_bps liquidation_incentive_bps : ℕ) : LiqResult :=
  let collateral_value := collateral_amount * collateral_price / NAD
  let borrow_limit := collateral_value * liquidation_cf_bps / BPS_DENOMINATOR
  if debt_amount < borrow_limit then
    .healthy (if 0 < debt_amount then borrow_limit * 100 / debt_amount else 999)
      collateral_value debt_amount borrow_limit
  else
    let is_insolvent := decide (collateral_value < debt_amount)
    let debt_to_repay :=
      if is_insolvent then debt_amount
      else min debt_amount (debt_amount * close_factor_bps / BPS_DENOMINATOR)
    let collateral_to_seize := min (debt_to_repay * NAD / collateral_price) collateral_amount
    let liquidator_bonus := collateral_to_seize * liquidation_incentive_bps / BPS_DENOMINATOR
    let collateral_to_reserves := collateral_to_seize - liquidator_bonus
    let bad_debt := if is_insolvent then debt_amount - collateral_value else 0
    .fire
      { is_insolvent := is_insolvent
        debt_to_repay := debt_to_repay
        collateral_seized := collateral_to_seize
        liquidator_bonus := liquidator_bonus
        collateral_to_reserves := collateral_to_reserves
        bad_debt := bad_debt
        remaining_collateral := collateral_amount - collateral_to_seize
        remaining_debt := debt_amount - debt_to_repay
        liquidator_profit_usd :=
          ((liquidator_bonus * collateral_price / NAD : ℕ) : ℤ) - (debt_to_repay : ℤ)
        collateral_value := collateral_value
        debt_amount := debt_amount
        borrow_limit := borrow_limit }

/-- Liquidation engine state (liquidation_engine.py, LiquidationEngine):
resolved close factor and incentive plus the running statistics. -/
structure LiquidationEngine where
  close_factor_bps : ℕ
  liquidation_incentive_bps : ℕ
  total_liquidations : ℕ
  total_bad_debt : ℕ
  total_liquidated_debt : ℕ
  total_seized_collateral : ℕ
deriving DecidableEq

/-- LiquidationEngine.__init__: a disabled partial-liquidation flag forces
the close factor to 10000 (full repayment); statistics start at zero. -/
def LiquidationEngine.init (close_factor_bps liquidation_incentive_bps : ℕ)
    (enablePartialLiquidation : Bool) : LiquidationEngine :=
  { close_factor_bps := if enablePartialLiquidation then close_factor_bps else 10000
    liquidation_incentive_bps := liquidation_incentive_bps
    total_liquidations := 0
    total_bad_debt := 0
    total_liquidated_debt := 0
    total_seized_collateral := 0 }

/-- LiquidationEngine.check_and_liquidate: run calculate_liquidation with the
stored parameters and, when it fires, accumulate the tracking totals. -/
def LiquidationEngine.check_and_liquidate (e : LiquidationEngine)
    (collateral_amount collateral_price debt_amount liquidation_cf_bps : ℕ) :
    LiquidationEngine × LiqResult :=
  let result := calculate_liquidation collateral_amount collateral_price debt_amount
    liquidation_cf_bps e.close_factor_bps e.liquidation_incentive_bps
  match result with
  | .healthy _ _ _ _ => (e, result)
  | .fire out =>
    ({ e with
        total_liquidations := e.total_liquidations + 1
        total_bad_debt := e.total_bad_debt + out.bad_debt
        total_liquidated_debt := e.total_liquidated_debt + out.debt_to_repay
        total_seized_collateral := e.total_seized_collateral + out.collateral_seized },
      result)

/-- EMA oracle state (ema_engine.py, EMAEngine): half-life in seconds,
last committed EMA (0 means uninitialized) and its timestamp. -/
structure EMAEngine where
  half_life : ℕ
  last_ema : ℕ
  last_update : ℕ
deriving DecidableEq

/-- EMAEngine.update (ema_engine.py lines 44-83).  First observation
(last_ema = 0) initializes the state and returns the spot price; a
non-positive elapsed time dt = current_time - last_update returns the stored
EMA with the state untouched; otherwise the source computes the new EMA with
IEEE-double exponential decay, commits and returns it.  The decay
computation is abstracted as the function parameter decay (half_life,
last_ema, spot, dt), since no claim depends on its value. -/
def EMAEngine.update (decay : ℕ → ℕ → ℕ → ℕ → ℕ) (s : EMAEngine)
    (current_spot_price current_time : ℕ) : EMAEngine × ℕ :=
  if s.last_ema = 0 then
    ({ s with last_ema := current_spot_price, last_update := current_time },
      current_spot_price)
  else if (current_time : ℤ) - (s.last_update : ℤ) ≤ 0 then
    (s, s.last_ema)
  else
    let new_ema := decay s.half_life s.last_ema current_spot_price
      (current_time - s.last_update)
    ({ s with last_ema := new_ema, last_update := current_time }, new_ema)

/-- Price oracle wrapper (ema_engine.py, PriceOracle): EMA smoothing when
use_ema is set, verbatim spot price otherwise.  In the source the
ema_engine attribute is None exactly when use_ema is false; the model keeps
an (unused) engine in that case. -/
structure PriceOracle where
  use_ema : Bool
  ema_engine : EMAEngine
deriving DecidableEq

/-- PriceOracle.get_price: the EMA branch updates (mutates) the engine
and returns its result; the pass-through branch returns the spot price and
never touches decay state. -/
def PriceOracle.get_price (decay : ℕ → ℕ → ℕ → ℕ → ℕ) (o : PriceOracle)
    (spot_price timestamp : ℕ) : PriceOracle × ℕ :=
  if o.use_ema then
    let r := o.ema_engine.update decay spot_price timestamp
    ({ o with ema_engine := r.1 }, r.2)
  else (o, spot_price)

/-- Borrower position record (gamm_pool.py, BorrowerPosition). -/
structure BorrowerPosition where
  id : ℕ
  collateral_amount : ℕ
  debt_amount : ℕ
  entry_price : ℕ
  entry_time : ℕ
  liquidated : Bool
  liquidation_time : Option ℕ
  liquidation_price : Option ℕ
  bad_debt_accrued : ℕ
deriving DecidableEq

/-- Liquidation event appended by GAMMPool.check_liquidations; the source
spreads the whole result dictionary into the event, plus the prices (its
ema_price key is the lending price when EMA is enabled, else the spot). -/
structure LiquidationEvent where
  timestamp : ℕ
  position_id : ℕ
  price : ℕ
  spot_price : ℕ
  ema_price : ℕ
  result : LiqOutcome
deriving DecidableEq

/-- The pool state touched by check_liquidations (gamm_pool.py, GAMMPool):
reserves, aggregate debt and collateral, oracle, CF calculator, liquidation
engine and the position list.  Time bookkeeping and the snapshot history,
which check_liquidations does not read, are omitted. -/
structure GAMMPool where
  reserve_base : ℕ
  reserve_quote : ℕ
  total_debt : ℕ
  total_collateral_base : ℕ
  price_oracle : PriceOracle
  cf_calculator : CollateralFactorCalculator
  liquidation_engine : LiquidationEngine
  positions : List BorrowerPosition
deriving DecidableEq

/-- GAMMPool.get_spot_price: quote/base at NAD scale, 0 on an empty base
reserve. -/
def GAMMPool.get_spot_price (p : GAMMPool) : ℕ :=
  if p.reserve_base = 0 then 0 else p.reserve_quote * NAD / p.reserve_base

/-- One iteration of the position loop of GAMMPool.check_liquidations
(gamm_pool.py lines 226-279), threading the mutated pool and the event list.
A position already marked liquidated is skipped.  Otherwise its liquidation
CF is recomputed from the current reserves and the engine is consulted; when
the result fires, the position is marked liquidated and shrunk to the
remaining amounts, the aggregates are decremented, the seized collateral
net of the bonus returns to the base reserve, the repaid debt returns to the
quote reserve, and an event is appended. -/
def check_liquidations_body (lending_price spot_price timestamp : ℕ)
    (use_ema : Bool) (acc : GAMMPool × List LiquidationEvent)
    (position : BorrowerPosition) : GAMMPool × List LiquidationEvent :=
  let p := acc.1
  if position.liquidated then
    ({ p with positions := p.positions ++ [position] }, acc.2)
  else
    let cfr := p.cf_calculator.calculate position.collateral_amount lending_price
      spot_price p.reserve_quote
    let er := p.liquidation_engine.check_and_liquidate position.collateral_amount
      lending_price position.debt_amount cfr.2.2
    match er.2 with
    | .healthy _ _ _ _ =>
      ({ p with liquidation_engine := er.1, positions := p.positions ++ [position] }, acc.2)
    | .fire out =>
      let position' := { position with
        liquidated := true
        liquidation_time := some timestamp
        liquidation_price := some lending_price
        bad_debt_accrued := out.bad_debt
        collateral_amount := out.remaining_collateral
        debt_amount := out.remaining_debt }
      let event : LiquidationEvent :=
        { timestamp := timestamp
          position_id := position.id
          price := lending_price
          spot_price := spot_price
          ema_price := if use_ema then lending_price else spot_price
          result := out }
      ({ p with
          liquidation_engine := er.1
          total_debt := p.total_debt - out.debt_to_repay
          total_collateral_base := p.total_collateral_base - out.collateral_seized
          reserve_base := p.reserve_base + out.collateral_to_reserves
          reserve_quote := p.reserve_quote + out.debt_to_repay
          positions := p.positions ++ [position'] },
        acc.2 ++ [event])

/-- GAMMPool.check_liquidations: derive the lending price through the oracle
(the single mutation of EMA state in this call), take the spot price, then
fold the loop body over the positions.  The source computes the spot price
twice (once inside get_lending_price, once after); both reads see the same
reserves, so the model computes it once. -/
def GAMMPool.check_liquidations (decay : ℕ → ℕ → ℕ → ℕ → ℕ) (p : GAMMPool)
    (timestamp : ℕ) : GAMMPool × List LiquidationEvent :=
  let spot_price := p.get_spot_price
  let or := p.price_oracle.get_price decay spot_price timestamp
  let p0 := { p with price_oracle := or.1, positions := [] }
  p.positions.foldl
    (check_liquidations_body or.2 spot_price timestamp p.price_oracle.use_ema) (p0, [])

/-- Stand-in for the abstracted EMA decay computation, used to instantiate
pool runs whose oracle has EMA disabled (the decay parameter is then never
consulted); it simply keeps the previous EMA. -/
def decay_stub : ℕ → ℕ → ℕ → ℕ → ℕ := fun _ last_ema _ _ => last_ema

/-- A concrete borrower position: 1000 tokens of collateral, 800 quote of
debt, opened at price 1.00 (all NAD-scaled). -/
def examplePosition : BorrowerPosition :=
  { id := 1
    collateral_amount := 1000000000000
    debt_amount := 800000000000
    entry_price := 1000000000
    entry_time := 0
    liquidated := false
    liquidation_time := none
    liquidation_price := none
    bad_debt_accrued := 0 }

/-- A concrete pool in the traditional configuration (EMA off, fixed CF
7500, no pessimistic cap, no buffer, close factor 5000, incentive 300)
holding examplePosition, with reserves 1000/1000 so the spot price is
1.00. -/
def examplePool : GAMMPool :=
  { reserve_base := 1000000000000
    reserve_quote := 1000000000000
    total_debt := 800000000000
    total_collateral_base := 1000000000000
    price_oracle := { use_ema := false, ema_engine := ⟨60, 0, 0⟩ }
    cf_calculator := ⟨false, false, false, some 7500, 8500⟩
    liquidation_engine := ⟨5000, 300, 0, 0, 0, 0⟩
    positions := [examplePosition] }

/-- The outcome of calculate_liquidation at the spec scenario of section 8:
collateral 1000 tokens at price 1.00, debt 900, liquidation CF 8500 bps,
close factor 5000, incentive 300 (solvent; half the debt repaid). -/
def exampleOutcome : LiqOutcome :=
  { is_insolvent := false
    debt_to_repay := 450000000000
    collateral_seized := 450000000000
    liquidator_bonus := 13500000000
    collateral_to_reserves := 436500000000
    bad_debt := 0
    remaining_collateral := 550000000000
    remaining_debt := 450000000000
    liquidator_profit_usd := -436500000000
    collateral_value := 1000000000000
    debt_amount := 900000000000
    borrow_limit := 850000000000 }

/-- The exact integer square root of the curve operand for v = 1000000000,
r1 = 500000000000000000 (a_scaled = 2). -/
theorem sqrt_operand_a2 : Nat.sqrt 1000000008000000000 = 1000000003 :=
  (Nat.eq_sqrt.mpr (by constructor <;> norm_num)).symm

/-- The exact integer square root of the curve operand for v = 1000000000,
r1 = 600000000000000000 (a_scaled = 1). -/
theorem sqrt_operand_a1 : Nat.sqrt 1000000004000000000 = 1000000001 :=
  (Nat.eq_sqrt.mpr (by constructor <;> norm_num)).symm

/-- The exact integer square root of the curve operand for v = 750000001,
r1 = NAD: the operand is one less than a perfect square. -/
theorem sqrt_operand_below_square : Nat.sqrt 4000000004000000000 = 2000000000 :=
  (Nat.eq_sqrt.mpr (by constructor <;> norm_num)).symm

/-- C6: the claim states that the liquidation engine's evaluate with zero
collateral value reports liquidatable iff the debt is positive.  The code
refutes it: calculate_liquidation has no zero-collateral special case, so a
position with zero collateral value and zero debt falls through the strict
comparison (debt 0 is not < borrow limit 0) into the liquidatable branch,
while the standalone is_liquidatable predicate of the same module returns
false there (debt is not positive), as the claim demands. -/
theorem zero_collateral_liquidatable_divergence :
    (calculate_liquidation 0 1000000000 0 8500 5000 300).liquidatable = true ∧
    is_liquidatable 0 0 8500 = false := by
  constructor <;> rfl

/-- C9: the claim states that building the CF component with dynamic CF
disabled and no fixed CF fails with a configuration error.  The code
refutes it: the constructor stores its fields with no validation, so
construction succeeds, and the solver silently falls back to a base CF of
7500 bps (its own comment reads: shouldn't happen).  At a nondegenerate
input (all values 1.00 NAD) the dead-branch default produces the triple
(700000000, 7000, 7500): liquidation CF 7500 from the fallback, 500 bps
buffer below it, and a borrow limit of 0.7. -/
theorem cf_calculator_silent_default :
    (CollateralFactorCalculator.init false true true none MAX_COLLATERAL_FACTOR_BPS).calculate
      1000000000 1000000000 1000000000 1000000000 = (700000000, 7000, 7500) := by
  rfl

/-- C3 (amended): for a base CF already inside the clamp range
[100, MAX_COLLATERAL_FACTOR_BPS] and an initialized EMA, the pessimistic CF
never exceeds the base CF (whatever the spot price), and equals the base CF
whenever spot >= ema.  Outside that range the final clamp can move the
result away from the base in either direction, which is what the
counterexample exhibits. -/
theorem pessimistic_cf_monotone_in_range (base_cf_bps spot_price ema_price : ℕ)
    (hlo : 100 ≤ base_cf_bps) (hhi : base_cf_bps ≤ MAX_COLLATERAL_FACTOR_BPS)
    (hema : 0 < ema_price) :
    get_pessimistic_cf_bps base_cf_bps spot_price ema_price ≤ base_cf_bps ∧
    (ema_price ≤ spot_price →
      get_pessimistic_cf_bps base_cf_bps spot_price ema_price = base_cf_bps) := by
  unfold get_pessimistic_cf_bps
  rw [if_neg (Nat.pos_iff_ne_zero.mp hema)]
  refine ⟨?_, ?_⟩
  · exact le_trans (min_le_right _ _)
      (max_le hlo (min_le_left _ _))
  · intro hse
    have hshrunk : base_cf_bps ≤ spot_price * base_cf_bps / ema_price := by
      have h1 : ema_price * base_cf_bps ≤ spot_price * base_cf_bps :=
        Nat.mul_le_mul_right _ hse
      have h2 : ema_price * base_cf_bps / ema_price = base_cf_bps :=
        Nat.mul_div_cancel_left _ hema
      calc base_cf_bps = ema_price * base_cf_bps / ema_price := h2.symm
        _ ≤ spot_price * base_cf_bps / ema_price := Nat.div_le_div_right h1
    simp only [min_eq_left hshrunk, max_eq_right hlo, min_eq_right hhi]

/-- C3 counterexample: with a base CF of 50 bps and spot equal to EMA, the
pessimistic CF is clamped up to the 100 bps floor, strictly above the base
CF — refuting that the pessimistic cap never increases the CF above the
base, and that spot >= ema keeps it equal to the base. -/
theorem pessimistic_cf_raises_small_base :
    get_pessimistic_cf_bps 50 1000000000 1000000000 = 100 ∧ 50 < 100 := by
  constructor
  · rfl
  · norm_num

/-- C7: for an initialized oracle state (last_ema nonzero) and any update
whose timestamp gives dt = timestamp - last_update <= 0, EMAEngine.update
returns the stored EMA and leaves the state unchanged, for every possible
decay computation — the decay branch is not reached. -/
theorem ema_update_idempotent_nonpositive_dt (decay : ℕ → ℕ → ℕ → ℕ → ℕ)
    (s : EMAEngine) (current_spot_price current_time : ℕ)
    (hinit : s.last_ema ≠ 0)
    (hdt : (current_time : ℤ) - (s.last_update : ℤ) ≤ 0) :
    s.update decay current_spot_price current_time = (s, s.last_ema) := by
  unfold EMAEngine.update
  rw [if_neg hinit, if_pos hdt]

/-- C7 witness: a concrete initialized state updated at its own timestamp. -/
theorem ema_update_idempotent_nonpositive_dt_witness :
    (⟨60, 1000000000, 100⟩ : EMAEngine).last_ema ≠ 0 ∧
    ((100 : ℤ) - ((⟨60, 1000000000, 100⟩ : EMAEngine).last_update : ℤ) ≤ 0) ∧
    EMAEngine.update decay_stub ⟨60, 1000000000, 100⟩ 555000000 100 =
      (⟨60, 1000000000, 100⟩, 1000000000) :=
  ⟨by decide, by decide,
    ema_update_idempotent_nonpositive_dt decay_stub ⟨60, 1000000000, 100⟩ 555000000 100
      (by decide) (by decide)⟩

/-- C3 witness: base CF 8000 bps, EMA 1.00, evaluated both below and at the
EMA (the equality conjunct instantiated with spot = 1.10 would need a second
input; here spot 0.90 exercises the bound and the implication holds
vacuously or directly as applicable). -/
theorem pessimistic_cf_monotone_in_range_witness :
    100 ≤ 8000 ∧ 8000 ≤ MAX_COLLATERAL_FACTOR_BPS ∧ 0 < 1000000000 ∧
    (get_pessimistic_cf_bps 8000 900000000 1000000000 ≤ 8000 ∧
      (1000000000 ≤ 900000000 →
        get_pessimistic_cf_bps 8000 900000000 1000000000 = 8000)) :=
  ⟨by decide, by decide, by decide,
    pessimistic_cf_monotone_in_range 8000 900000000 1000000000
      (by decide) (by decide) (by decide)⟩

/-- C4 (amended): with the LTV buffer enabled the solver computes
max_allowed_cf_bps as liquidation_cf_bps minus the global LTV_BUFFER_BPS,
clamped at zero, so the gap between the liquidation CF and the maximum
allowed CF is exactly min liquidation_cf_bps LTV_BUFFER_BPS — it equals the
buffer only when the liquidation CF is at least the buffer.  (The buffer
that is subtracted is the global constant 500; the constructor of the
calculator accepts no per-run buffer value.) -/
theorem ltv_buffer_gap_eq_min (collateral_amount collateral_ema_price
    collateral_spot_price debt_reserve : ℕ) (fixed_cf_bps : Option ℕ)
    (use_dynamic_cf use_pessimistic_cap : Bool) :
    (pessimistic_max_debt collateral_amount collateral_ema_price collateral_spot_price
        debt_reserve fixed_cf_bps use_dynamic_cf use_pessimistic_cap true).2.2 -
      (pessimistic_max_debt collateral_amount collateral_ema_price collateral_spot_price
        debt_reserve fixed_cf_bps use_dynamic_cf use_pessimistic_cap true).2.1 =
    min (pessimistic_max_debt collateral_amount collateral_ema_price collateral_spot_price
        debt_reserve fixed_cf_bps use_dynamic_cf use_pessimistic_cap true).2.2
      LTV_BUFFER_BPS := by
  unfold pessimistic_max_debt
  have h5 : LTV_BUFFER_BPS = 500 := rfl
  repeat' split
  all_goals dsimp only
  all_goals try omega
  all_goals simp_all

/-- C4 counterexample: fixed CF 7500 with the pessimistic cap active and the
spot price collapsed to the smallest positive value drives the liquidation
CF to the 100 bps floor; the buffered max-allowed CF clamps at zero and the
gap is 100 bps, not the configured 500 bps buffer. -/
theorem ltv_buffer_gap_counterexample :
    pessimistic_max_debt 1000000000 1000000000 1 1000000000 (some 7500) true true true =
      (0, 0, 100) ∧
    (pessimistic_max_debt 1000000000 1000000000 1 1000000000 (some 7500) true true true).2.2 -
      (pessimistic_max_debt 1000000000 1000000000 1 1000000000
        (some 7500) true true true).2.1 ≠ LTV_BUFFER_BPS := by
  constructor
  · rfl
  · decide

/-- C5: for every liquidation outcome the engine fires (with the incentive
within the basis-point range [0, 10000] demanded of every BasisPoints value
by the data model), the seized collateral splits exactly into the liquidator
bonus and the collateral returned to reserves: the bonus is a bps share of
the seizure, hence at most the seizure, and the reserve return is their
truncated difference. -/
theorem seized_collateral_conservation (collateral_amount collateral_price debt_amount
    liquidation_cf_bps close_factor_bps liquidation_incentive_bps : ℕ)
    (hinc : liquidation_incentive_bps ≤ BPS_DENOMINATOR) (out : LiqOutcome)
    (hout : calculate_liquidation collateral_amount collateral_price debt_amount
      liquidation_cf_bps close_factor_bps liquidation_incentive_bps = .fire out) :
    out.collateral_seized = out.liquidator_bonus + out.collateral_to_reserves := by
  have key : ∀ s : ℕ, s * liquidation_incentive_bps / BPS_DENOMINATOR ≤ s := by
    intro s
    calc s * liquidation_incentive_bps / BPS_DENOMINATOR
        ≤ s * BPS_DENOMINATOR / BPS_DENOMINATOR :=
          Nat.div_le_div_right (Nat.mul_le_mul_left _ hinc)
      _ = s := Nat.mul_div_cancel _ (by decide)
  unfold calculate_liquidation at hout
  by_cases hlt : debt_amount <
      collateral_amount * collateral_price / NAD * liquidation_cf_bps / BPS_DENOMINATOR
  · simp only [if_pos hlt] at hout
    exact (LiqResult.noConfusion hout)
  · simp only [if_neg hlt] at hout
    injection hout with h
    subst h
    dsimp only
    exact (Nat.add_sub_cancel' (key _)).symm

/-- C5 witness: the spec section 8 partial-liquidation scenario — collateral
1000 tokens at 1.00, debt 900, liquidation CF 8500 bps — fires with 450
seized, a 3% bonus of 13.5 and 436.5 returned to reserves. -/
theorem seized_collateral_conservation_witness :
    300 ≤ BPS_DENOMINATOR ∧
    calculate_liquidation 1000000000000 1000000000 900000000000 8500 5000 300 =
      .fire exampleOutcome ∧
    exampleOutcome.collateral_seized =
      exampleOutcome.liquidator_bonus + exampleOutcome.collateral_to_reserves :=
  ⟨by decide, by decide,
    seized_collateral_conservation 1000000000000 1000000000 900000000000 8500 5000 300
      (by decide) exampleOutcome (by decide)⟩

/-- C1: whenever no fixed CF is configured (fixed_cf_bps = none) and dynamic
CF is enabled, the solver's base CF is the dynamic CF derived from the AMM
solvency curve — the result triple is exactly the pessimistic-cap, buffer
and borrow-limit pipeline applied to calculate_dynamic_cf, never to a fixed
value.  Both pool call sites (position open and each liquidation check) go
through CollateralFactorCalculator.calculate, which is this solver with the
stored configuration. -/
theorem cf_base_derived_from_curve (use_pessimistic_cap use_ltv_buffer : Bool)
    (collateral_amount collateral_ema_price collateral_spot_price debt_reserve : ℕ)
    (hc : collateral_amount ≠ 0) (he : collateral_ema_price ≠ 0)
    (hs : collateral_spot_price ≠ 0) (hr : debt_reserve ≠ 0) :
    pessimistic_max_debt collateral_amount collateral_ema_price collateral_spot_price
      debt_reserve none true use_pessimistic_cap use_ltv_buffer =
    (let base_cf_bps := calculate_dynamic_cf collateral_amount collateral_ema_price
        debt_reserve
     let liquidation_cf_bps :=
       if use_pessimistic_cap then
         get_pessimistic_cf_bps base_cf_bps collateral_spot_price collateral_ema_price
       else min base_cf_bps MAX_COLLATERAL_FACTOR_BPS
     let max_allowed_cf_bps :=
       liquidation_cf_bps - (if use_ltv_buffer then LTV_BUFFER_BPS else 0)
     (collateral_amount * collateral_ema_price / NAD * max_allowed_cf_bps /
        BPS_DENOMINATOR,
      max_allowed_cf_bps, liquidation_cf_bps)) := by
  unfold pessimistic_max_debt
  rw [if_neg (by simp [hc, he, hs])]
  simp [hr]

/-- C1 witness: 1000 tokens of collateral at EMA = spot = 1.00 against a
debt reserve of 1000, full pipeline enabled. -/
theorem cf_base_derived_from_curve_witness :
    (1000000000000 : ℕ) ≠ 0 ∧ (1000000000 : ℕ) ≠ 0 ∧ (1000000000 : ℕ) ≠ 0 ∧
    (1000000000000 : ℕ) ≠ 0 ∧
    pessimistic_max_debt 1000000000000 1000000000 1000000000 1000000000000
      none true true true =
    (let base_cf_bps := calculate_dynamic_cf 1000000000000 1000000000 1000000000000
     let liquidation_cf_bps :=
       if true then get_pessimistic_cf_bps base_cf_bps 1000000000 1000000000
       else min base_cf_bps MAX_COLLATERAL_FACTOR_BPS
     let max_allowed_cf_bps :=
       liquidation_cf_bps - (if true then LTV_BUFFER_BPS else 0)
     (1000000000000 * 1000000000 / NAD * max_allowed_cf_bps / BPS_DENOMINATOR,
      max_allowed_cf_bps, liquidation_cf_bps)) :=
  ⟨by decide, by decide, by decide, by decide,
    cf_base_derived_from_curve true true 1000000000000 1000000000 1000000000
      1000000000000 (by decide) (by decide) (by decide) (by decide)⟩

/-- C8: the claim that the dynamic CF is monotone in the debt reserve at
fixed collateral value fails on the code.  At collateral 1 token, EMA 1.00
(collateral value 1.00) the deeper reserve 600000000.0 yields CF 0 while the
shallower reserve 500000000.0 yields CF 5000: the scaled curve parameter t
truncates to 0 or 1 at these depths (a_scaled drops from 2 to 1), so the
computed CF collapses instead of growing.  The values coincide with the
source's float square root: both square roots differ by one unit from the
exact ones at these operands, but the truncated t, y and CF are identical. -/
theorem dynamic_cf_monotonicity_failure :
    calculate_dynamic_cf 1000000000 1000000000 500000000000000000 = 5000 ∧
    calculate_dynamic_cf 1000000000 1000000000 600000000000000000 = 0 ∧
    (500000000000000000 : ℕ) < 600000000000000000 := by
  have hy1 : curve_y_from_v 1000000000 500000000000000000 = 500000000 := by
    unfold curve_y_from_v
    rw [show curve_sqrt_operand 1000000000 500000000000000000 = 1000000008000000000
      from by decide, sqrt_operand_a2]
    decide
  have hy2 : curve_y_from_v 1000000000 600000000000000000 = 0 := by
    unfold curve_y_from_v
    rw [show curve_sqrt_operand 1000000000 600000000000000000 = 1000000004000000000
      from by decide, sqrt_operand_a1]
    decide
  refine ⟨?_, ?_, by norm_num⟩
  · unfold calculate_dynamic_cf
    rw [show (1000000000 * 1000000000 / NAD : ℕ) = 1000000000 from by decide]
    simp only [hy1]
    decide
  · unfold calculate_dynamic_cf
    rw [show (1000000000 * 1000000000 / NAD : ℕ) = 1000000000 from by decide]
    simp only [hy2]
    decide

/-- C10: the claim that the curve's square-root term is the exact integer
square root of the NAD-pre-multiplied operand fails on the code, which
computes int(math.sqrt(operand)) with IEEE doubles.  At v = 750000001,
r1 = NAD the operand is 4000000004000000000 = 2000000001^2 - 1, whose exact
floor square root is 2000000000; the correctly rounded double square root is
2000000001.0 (the real root is within 2.5e-10 of it, far below the 4.8e-7
spacing of doubles there), so the source's term is 2000000001 — off by one
from the exact value the claim requires. -/
theorem curve_sqrt_float_drift :
    curve_sqrt_operand 750000001 1000000000 + 1 = 2000000001 * 2000000001 ∧
    Nat.sqrt (curve_sqrt_operand 750000001 1000000000) = 2000000000 := by
  have hop : curve_sqrt_operand 750000001 1000000000 = 4000000004000000000 := by
    norm_num [curve_sqrt_operand, NAD]
  rw [hop]
  exact ⟨by norm_num, sqrt_operand_below_square⟩

/-- C2 (amended): when the liquidation check fires for a live position —
including a solvent one repaid only in part — check_liquidations marks the
position liquidated (it is not left alive at reduced size), shrinking its
collateral and debt to the remaining amounts; only positions already marked
liquidated are skipped.  Stated on the loop body of
GAMMPool.check_liquidations: a live position whose engine result fires is
re-appended marked liquidated. -/
theorem fired_liquidation_marks_position (lending_price spot_price timestamp : ℕ)
    (use_ema : Bool) (acc : GAMMPool × List LiquidationEvent)
    (position : BorrowerPosition) (hnl : position.liquidated = false)
    (hfire : ((acc.1.liquidation_engine.check_and_liquidate position.collateral_amount
        lending_price position.debt_amount
        ((acc.1.cf_calculator.calculate position.collateral_amount lending_price
          spot_price acc.1.reserve_quote).2.2)).2).liquidatable = true) :
    ∃ q : BorrowerPosition,
      (check_liquidations_body lending_price spot_price timestamp use_ema acc
        position).1.positions = acc.1.positions ++ [q] ∧
      q.liquidated = true ∧ q.id = position.id := by
  unfold check_liquidations_body
  simp only [hnl, Bool.false_eq_true, if_false]
  cases hres : (acc.1.liquidation_engine.check_and_liquidate position.collateral_amount
      lending_price position.debt_amount
      ((acc.1.cf_calculator.calculate position.collateral_amount lending_price
        spot_price acc.1.reserve_quote).2.2)).2 with
  | healthy a b c d =>
    rw [hres] at hfire
    simp [LiqResult.liquidatable] at hfire
  | fire out =>
    simp only [hres]
    exact ⟨_, rfl, rfl, rfl⟩

/-- C2 witness: the live examplePosition fires in examplePool (fixed CF
7500, lending price 1.00) and comes back marked liquidated. -/
theorem fired_liquidation_marks_position_witness :
    examplePosition.liquidated = false ∧
    ((examplePool.liquidation_engine.check_and_liquidate examplePosition.collateral_amount
        1000000000 examplePosition.debt_amount
        ((examplePool.cf_calculator.calculate examplePosition.collateral_amount 1000000000
          1000000000 examplePool.reserve_quote).2.2)).2).liquidatable = true ∧
    ∃ q : BorrowerPosition,
      (check_liquidations_body 1000000000 1000000000 60 false (examplePool, [])
        examplePosition).1.positions = examplePool.positions ++ [q] ∧
      q.liquidated = true ∧ q.id = examplePosition.id :=
  ⟨by decide, by decide,
    fired_liquidation_marks_position 1000000000 1000000000 60 false (examplePool, [])
      examplePosition (by decide) (by decide)⟩

/-- C2 counterexample: in examplePool the single position (collateral 1000
at price 1.00, debt 800, liquidation CF 7500, close factor 5000) is solvent
and only half its debt is repaid (400 of 800, not insolvent), yet after
check_liquidations the position is marked liquidated — refuting the claim
that a solvent restitution with debt_to_repay < debt_amount leaves the
position unmarked and re-evaluated later. -/
theorem partial_liquidation_marked_counterexample :
    (examplePool.positions.map fun q => q.debt_amount) = [800000000000] ∧
    ((examplePool.check_liquidations decay_stub 60).2.map fun e =>
      e.result.debt_to_repay) = [400000000000] ∧
    ((examplePool.check_liquidations decay_stub 60).2.map fun e =>
      e.result.is_insolvent) = [false] ∧
    ((examplePool.check_liquidations decay_stub 60).1.positions.map fun q =>
      q.liquidated) = [true] := by
  exact ⟨by decide, by decide, by decide, by decide⟩
